import Mathlib

/-
  Verification development for the js-worker repository (src/lib/runner.js).

  The embedding below models, from the source:
  * JSON values, JSON.parse and JSON.stringify (the worker parses popped
    payloads and failure diagnostics, and stringifies the records it stores);
  * the redis-backed store state touched by the worker (live-worker set,
    string keys, the two stat counters, the failed list) together with the
    console log;
  * the Worker methods (start, stop, waitAndProcess, register, unregister,
    workingOn, done, success, fail) as a deterministic event-step function
    over a worker state (running flag, pending pop callback, poll timer,
    in-flight child process);
  * QueueRunner.quit as a fold of Worker.stop over the owned workers.
-/

/-- JSON values as produced by JSON.parse. Numbers keep their lexeme, which
is all the runner ever does with them (they are only carried around and
re-serialized). -/
inductive Json where
  | null : Json
  | bool : Bool → Json
  | num : String → Json
  | str : String → Json
  | arr : List Json → Json
  | obj : List (String × Json) → Json

/-- Lowercase hex digit, as used by JSON.stringify for control characters. -/
def hexDigit (n : Nat) : Char :=
  if n < 10 then Char.ofNat (48 + n) else Char.ofNat (87 + n)

def hex4 (n : Nat) : String :=
  String.mk [hexDigit (n / 4096 % 16), hexDigit (n / 256 % 16),
             hexDigit (n / 16 % 16), hexDigit (n % 16)]

/-- JSON string escaping of one character (JSON.stringify). -/
def escapeChar (c : Char) : String :=
  if c = '"' then "\\\""
  else if c = '\\' then "\\\\"
  else if c = '\n' then "\\n"
  else if c = '\r' then "\\r"
  else if c = '\t' then "\\t"
  else if c = '\x08' then "\\b"
  else if c = '\x0c' then "\\f"
  else if c.toNat < 32 then "\\u" ++ hex4 c.toNat
  else String.singleton c

def quoteString (s : String) : String :=
  "\"" ++ String.join (s.toList.map escapeChar) ++ "\""

mutual
/-- JSON.stringify on a JSON value. -/
def stringify : Json → String
  | Json.null => "null"
  | Json.bool true => "true"
  | Json.bool false => "false"
  | Json.num s => s
  | Json.str s => quoteString s
  | Json.arr xs => "[" ++ stringifyElems xs ++ "]"
  | Json.obj fs => "\x7b" ++ stringifyFields fs ++ "\x7d"

def stringifyElems : List Json → String
  | [] => ""
  | [x] => stringify x
  | x :: y :: xs => stringify x ++ "," ++ stringifyElems (y :: xs)

def stringifyFields : List (String × Json) → String
  | [] => ""
  | [(k, v)] => quoteString k ++ ":" ++ stringify v
  | (k, v) :: f :: fs => quoteString k ++ ":" ++ stringify v ++ "," ++ stringifyFields (f :: fs)
end

/-- The whitespace characters JSON.parse skips. -/
def isJsonWs (c : Char) : Bool :=
  c == ' ' || c == '\t' || c == '\n' || c == '\r'

def skipWs : List Char → List Char
  | [] => []
  | c :: cs => if isJsonWs c then skipWs cs else c :: cs

def hexVal (c : Char) : Option Nat :=
  if '0' ≤ c ∧ c ≤ '9' then some (c.toNat - 48)
  else if 'a' ≤ c ∧ c ≤ 'f' then some (c.toNat - 87)
  else if 'A' ≤ c ∧ c ≤ 'F' then some (c.toNat - 55)
  else none

/-- Body of a JSON string after the opening quote: returns the decoded
string and the remaining characters after the closing quote. -/
def parseStringBody : Nat → List Char → Option (String × List Char)
  | 0, _ => none
  | _, [] => none
  | fuel + 1, c :: cs =>
    if c = '"' then some ("", cs)
    else if c = '\\' then
      match cs with
      | [] => none
      | e :: cs1 =>
        let esc : Option (Char × List Char) :=
          if e = '"' then some ('"', cs1)
          else if e = '\\' then some ('\\', cs1)
          else if e = '/' then some ('/', cs1)
          else if e = 'b' then some ('\x08', cs1)
          else if e = 'f' then some ('\x0c', cs1)
          else if e = 'n' then some ('\n', cs1)
          else if e = 'r' then some ('\r', cs1)
          else if e = 't' then some ('\t', cs1)
          else if e = 'u' then
            match cs1 with
            | h1 :: h2 :: h3 :: h4 :: rest =>
              match hexVal h1, hexVal h2, hexVal h3, hexVal h4 with
              | some a, some b, some c2, some d =>
                some (Char.ofNat (a * 4096 + b * 256 + c2 * 16 + d), rest)
              | _, _, _, _ => none
            | _ => none
          else none
        match esc with
        | none => none
        | some (ch, rest) =>
          match parseStringBody fuel rest with
          | some (s, rem) => some (String.singleton ch ++ s, rem)
          | none => none
    else if c.toNat < 32 then none
    else
      match parseStringBody fuel cs with
      | some (s, rem) => some (String.singleton c ++ s, rem)
      | none => none

def spanDigits : List Char → List Char × List Char
  | [] => ([], [])
  | c :: cs =>
    if c.isDigit then
      let (d, r) := spanDigits cs
      (c :: d, r)
    else ([], c :: cs)

/-- Optional fraction part of a JSON number. -/
def parseFrac (acc : List Char) (cs : List Char) : Option (List Char × List Char) :=
  match cs with
  | '.' :: rest =>
    match spanDigits rest with
    | ([], _) => none
    | (d, r) => some (acc ++ '.' :: d, r)
  | _ => some (acc, cs)

/-- Optional exponent part of a JSON number. -/
def parseExp (acc : List Char) (cs : List Char) : Option (List Char × List Char) :=
  match cs with
  | e :: rest =>
    if e = 'e' ∨ e = 'E' then
      let (sgn, rest2) : List Char × List Char :=
        match rest with
        | '+' :: r => (['+'], r)
        | '-' :: r => (['-'], r)
        | _ => ([], rest)
      match spanDigits rest2 with
      | ([], _) => none
      | (d, r) => some (acc ++ e :: (sgn ++ d), r)
    else some (acc, cs)
  | [] => some (acc, cs)

def finishNumber (intPart : List Char) (cs : List Char) : Option (String × List Char) :=
  match parseFrac intPart cs with
  | none => none
  | some (f, cs1) =>
    match parseExp f cs1 with
    | none => none
    | some (x, cs2) => some (String.mk x, cs2)

/-- A JSON number lexeme (strict grammar: no leading zeros). -/
def parseNumber (cs : List Char) : Option (String × List Char) :=
  let (sign, cs1) : List Char × List Char :=
    match cs with
    | '-' :: rest => (['-'], rest)
    | _ => ([], cs)
  match cs1 with
  | [] => none
  | c :: rest =>
    if c = '0' then finishNumber (sign ++ ['0']) rest
    else if c.isDigit then
      let (d, r) := spanDigits rest
      finishNumber (sign ++ c :: d) r
    else none

/-- Object member assignment as performed by JSON.parse for duplicate keys:
the first occurrence fixes the position, a later occurrence overwrites the
value. -/
def assignField : List (String × Json) → String → Json → List (String × Json)
  | [], k, v => [(k, v)]
  | (k1, v1) :: fs, k, v =>
    if k1 = k then (k1, v) :: fs else (k1, v1) :: assignField fs k v

def dedupFields (fs : List (String × Json)) : List (String × Json) :=
  fs.foldl (fun acc p => assignField acc p.1 p.2) []

mutual
/-- Recursive-descent JSON value parser (fuel-indexed). -/
def parseValue : Nat → List Char → Option (Json × List Char)
  | 0, _ => none
  | fuel + 1, cs =>
    match skipWs cs with
    | [] => none
    | c :: rest =>
      if c = '"' then
        match parseStringBody (rest.length + 1) rest with
        | some (s, rem) => some (Json.str s, rem)
        | none => none
      else if c = '-' ∨ c.isDigit then
        match parseNumber (c :: rest) with
        | some (s, rem) => some (Json.num s, rem)
        | none => none
      else if c = 't' then
        match rest with
        | 'r' :: 'u' :: 'e' :: rem => some (Json.bool true, rem)
        | _ => none
      else if c = 'f' then
        match rest with
        | 'a' :: 'l' :: 's' :: 'e' :: rem => some (Json.bool false, rem)
        | _ => none
      else if c = 'n' then
        match rest with
        | 'u' :: 'l' :: 'l' :: rem => some (Json.null, rem)
        | _ => none
      else if c = '[' then
        match skipWs rest with
        | ']' :: rem => some (Json.arr [], rem)
        | cs2 =>
          match parseElems fuel cs2 with
          | some (xs, rem) => some (Json.arr xs, rem)
          | none => none
      else if c = '\x7b' then
        match skipWs rest with
        | '\x7d' :: rem => some (Json.obj [], rem)
        | cs2 =>
          match parseFields fuel cs2 with
          | some (fs, rem) => some (Json.obj (dedupFields fs), rem)
          | none => none
      else none

/-- Comma-separated array elements up to the closing bracket. -/
def parseElems : Nat → List Char → Option (List Json × List Char)
  | 0, _ => none
  | fuel + 1, cs =>
    match parseValue fuel cs with
    | none => none
    | some (v, rem) =>
      match skipWs rem with
      | ',' :: rem2 =>
        match parseElems fuel rem2 with
        | some (xs, rem3) => some (v :: xs, rem3)
        | none => none
      | ']' :: rem2 => some ([v], rem2)
      | _ => none

/-- Comma-separated object members up to the closing brace. -/
def parseFields : Nat → List Char → Option (List (String × Json) × List Char)
  | 0, _ => none
  | fuel + 1, cs =>
    match skipWs cs with
    | '"' :: rest =>
      match parseStringBody (rest.length + 1) rest with
      | none => none
      | some (k, rem) =>
        match skipWs rem with
        | ':' :: rem2 =>
          match parseValue fuel rem2 with
          | none => none
          | some (v, rem3) =>
            match skipWs rem3 with
            | ',' :: rem4 =>
              match parseFields fuel rem4 with
              | some (fs, rem5) => some ((k, v) :: fs, rem5)
              | none => none
            | '\x7d' :: rem4 => some ([(k, v)], rem4)
            | _ => none
        | _ => none
    | _ => none
end

/-- JSON.parse: parse a whole string as one JSON value (trailing whitespace
allowed); a syntax error raises, modelled as Except.error. -/
def parseJson (s : String) : Except String Json :=
  let cs := s.toList
  match parseValue (2 * cs.length + 2) cs with
  | none => Except.error "SyntaxError: Unexpected token"
  | some (v, rem) =>
    match skipWs rem with
    | [] => Except.ok v
    | _ => Except.error "SyntaxError: Unexpected token"

/-! ### Failure classification (Worker.fail, runner.js lines 158-180) -/
/-- First binding of a key in an object field list. -/
def fieldLookup : List (String × Json) → String → Option Json
  | [], _ => none
  | (k1, v) :: fs, k => if k1 = k then some v else fieldLookup fs k

/-- Property lookup on a JSON value rendered as a record. -/
def jlookup : Json → String → Option Json
  | Json.obj fs, k => fieldLookup fs k
  | _, _ => none

/-- JavaScript property access data[k] on a non-null value: objects give the
bound value or undefined (none); numbers, strings, booleans and arrays give
undefined for the keys the runner asks about. -/
def jsGetField (data : Json) (k : String) : Option Json :=
  match data with
  | Json.obj fs => fieldLookup fs k
  | _ => none

def JOB_ERROR_TYPES : List String := ["exception", "error", "backtrace"]

/-- The info object built inside the try block of Worker.fail: for each key
of JOB_ERROR_TYPES, info[key] = data[key]. Property access on a parsed null
throws a TypeError, modelled as none for the whole block. -/
def extractInfo : Json → Option (List (String × Option Json))
  | Json.null => none
  | data => some (JOB_ERROR_TYPES.map fun k => (k, jsGetField data k))

/-- The catch-branch info object of Worker.fail. -/
def genericInfo (response : String) : List (String × Option Json) :=
  [("exception", some (Json.str "UnclassifiedRunnerError")),
   ("error", some (Json.str response))]

/-- The info object Worker.fail ends up with for a diagnostic text: JSON
parse inside try, field extraction inside the same try, catch synthesizes
the generic classification. -/
def classify (response : String) : List (String × Option Json) :=
  match parseJson response with
  | Except.error _ => genericInfo response
  | Except.ok data =>
    match extractInfo data with
    | some info => info
    | none => genericInfo response

/-- One Object.assign step on a field list whose values may be undefined:
an existing key is overwritten in place, a new key is appended. -/
def assignFieldO : List (String × Option Json) → String → Option Json → List (String × Option Json)
  | [], k, v => [(k, v)]
  | (k1, v1) :: fs, k, v =>
    if k1 = k then (k1, v) :: fs else (k1, v1) :: assignFieldO fs k v

/-- Object.assign(\x7b\x7d, base, info). -/
def objAssign (base info : List (String × Option Json)) : List (String × Option Json) :=
  info.foldl (fun acc p => assignFieldO acc p.1 p.2) base

/-- JSON.stringify drops properties whose value is undefined. -/
def definedFields : List (String × Option Json) → List (String × Json)
  | [] => []
  | (k, some v) :: fs => (k, v) :: definedFields fs
  | (_, none) :: fs => definedFields fs

/-- The base error object of Worker.fail (runner.js lines 160-166). -/
def baseFailure (t : String) (job : Json) (name queue : String) : List (String × Option Json) :=
  [("failed_at", some (Json.str t)),
   ("payload", some job),
   ("worker", some (Json.str name)),
   ("queue", some (Json.str queue)),
   ("backtrace", some Json.null)]

/-- The JSON record Worker.fail serializes and pushes onto resque:failed. -/
def failureRecordJson (t : String) (job : Json) (name queue response : String) : Json :=
  Json.obj (definedFields (objAssign (baseFailure t job name queue) (classify response)))

/-- The record Worker.workingOn serializes into the worker key. -/
def workingOnJson (queue t : String) (data : Json) : Json :=
  Json.obj [("queue", Json.str queue), ("run_at", Json.str t), ("payload", data)]

/-! ### The redis-backed store and the console log -/
/-- The slice of redis state the runner touches: the resque:workers set, the
string keys (worker and started records), the two stat counters and the
resque:failed list. -/
structure Store where
  workers : List String
  kv : List (String × String)
  processed : Nat
  failed : Nat
  failedList : List String
deriving DecidableEq

/-- Store plus the process console output (newest line first). -/
structure Sys where
  store : Store
  log : List String
deriving DecidableEq

def kvGet : List (String × String) → String → Option String
  | [], _ => none
  | (k1, v) :: rest, k => if k1 = k then some v else kvGet rest k

def kvDel : List (String × String) → String → List (String × String)
  | [], _ => []
  | (k1, v) :: rest, k => if k1 = k then kvDel rest k else (k1, v) :: kvDel rest k

/-- redis SET: the key now binds v (representation: bind in front, drop any
older binding). -/
def kvSet (kv : List (String × String)) (k v : String) : List (String × String) :=
  (k, v) :: kvDel kv k

/-- redis SADD. -/
def sadd (l : List String) (x : String) : List String :=
  if x ∈ l then l else x :: l

/-- redis SREM. -/
def srem : List String → String → List String
  | [], _ => []
  | y :: rest, x => if y = x then srem rest x else y :: srem rest x

/-- Key constants of runner.js (RK_WORKER and friends, resolved). -/
def RK_WORKER : String := "resque:worker"

def RK_WORKERS : String := "resque:workers"

def RK_FAILED : String := "resque:failed"

def workerKey (name : String) : String := RK_WORKER ++ ":" ++ name

def startedKey (name : String) : String := workerKey name ++ ":started"

/-! ### Worker methods (runner.js lines 47-182) -/
/-- Per-worker construction data: queue, index, rendered identity and the
poll interval in milliseconds. -/
structure WCfg where
  queue : String
  id : Nat
  name : String
  interval : Nat
deriving DecidableEq

/-- The identity string rendered by the Worker constructor:
host:pid-id:queue. -/
def mkName (host : String) (pid : Nat) (id : Nat) (queue : String) : String :=
  host ++ ":" ++ toString pid ++ "-" ++ toString id ++ ":" ++ queue

/-- Mutable per-worker state: the running flag, whether an lpop callback is
outstanding, the armed poll timer (carrying its delay) and the in-flight
child process (parsed job and raw payload). -/
structure WState where
  running : Bool
  pendingPop : Bool
  pollTimer : Option Nat
  executing : Option (Json × String)

/-- Worker state as constructed (running = false, no timer). -/
def w0 : WState :=
  { running := false, pendingPop := false, pollTimer := none, executing := none }

/-- Worker.register. -/
def register (cfg : WCfg) (t : String) (st : Store) : Store :=
  { st with workers := sadd st.workers cfg.name,
            kv := kvSet st.kv (startedKey cfg.name) t }

/-- Worker.unregister. -/
def unregister (cfg : WCfg) (st : Store) : Store :=
  { st with workers := srem st.workers cfg.name,
            kv := kvDel (kvDel st.kv (workerKey cfg.name)) (startedKey cfg.name) }

/-- Worker.workingOn. -/
def workingOn (cfg : WCfg) (t : String) (data : Json) (st : Store) : Store :=
  let work := stringify (workingOnJson cfg.queue t data)
  { st with kv := kvSet st.kv (workerKey cfg.name) work }

/-- Worker.done: bump the stat counter picked by the outcome, drop the
working-on record. -/
def done (cfg : WCfg) (successful : Bool) (st : Store) : Store :=
  let st1 := if successful then { st with processed := st.processed + 1 }
             else { st with failed := st.failed + 1 }
  { st1 with kv := kvDel st1.kv (workerKey cfg.name) }

/-- Worker.success. -/
def success (cfg : WCfg) (st : Store) : Store := done cfg true st

/-- Worker.fail: done(false), then classify the diagnostic text and lpush
the merged failure record. -/
def fail (cfg : WCfg) (t : String) (job : Json) (response : String) (st : Store) : Store :=
  let st1 := done cfg false st
  { st1 with failedList :=
      stringify (failureRecordJson t job cfg.name cfg.queue response) :: st1.failedList }

/-- Worker.stop: clear the poll timer, unregister, drop the running flag.
An outstanding lpop callback or child process is untouched. -/
def stopW (cfg : WCfg) (s : WState) (sys : Sys) : WState × Sys :=
  ({ s with pollTimer := none, running := false },
   { sys with store := unregister cfg sys.store,
              log := ("Shutting down worker: " ++ cfg.name) :: sys.log })

/-- What the lpop callback receives: a transport error, an empty queue, or
a popped payload string. -/
inductive PopResult where
  | err : String → PopResult
  | nil : PopResult
  | payload : String → PopResult
deriving DecidableEq

/-- The asynchronous events a worker reacts to. start and stop are the
method calls; timerFire is the armed setTimeout firing; popReply is the
lpop callback; childExit is the forked child exit handler. -/
inductive Event where
  | start : Event
  | stop : Event
  | timerFire : Event
  | popReply : PopResult → Event
  | childExit : Nat → String → Event
deriving DecidableEq

/-- One event handled by the worker, at wall-clock time t (the string a
Date would render to). Returns none when the event is not enabled in this
state (no such callback is outstanding). -/
def step (cfg : WCfg) (t : String) (s : WState) (sys : Sys) : Event → Option (WState × Sys)
  | Event.start =>
    if s.running ∨ s.pendingPop ∨ s.pollTimer.isSome ∨ s.executing.isSome then none
    else some ({ s with running := true, pendingPop := true },
               { sys with store := register cfg t sys.store })
  | Event.stop => some (stopW cfg s sys)
  | Event.timerFire =>
    match s.pollTimer with
    | none => none
    | some _ => some ({ s with pollTimer := none, pendingPop := true }, sys)
  | Event.popReply r =>
    if s.pendingPop then
      let s1 := { s with pendingPop := false }
      match r with
      | PopResult.err m =>
        some ({ s1 with pollTimer := some cfg.interval },
              { sys with log := ("Worker-Error: " ++ m) :: sys.log })
      | PopResult.nil =>
        some ({ s1 with pollTimer := some cfg.interval }, sys)
      | PopResult.payload p =>
        match parseJson p with
        | Except.error e =>
          some ({ s1 with pollTimer := some cfg.interval },
                { sys with log := ("Worker-Error: Parse Error: " ++ e) :: sys.log })
        | Except.ok job =>
          some ({ s1 with executing := some (job, p) },
                { sys with store := workingOn cfg t job sys.store })
    else none
  | Event.childExit code response =>
    match s.executing with
    | none => none
    | some (job, _) =>
      let st1 := if code = 0 then success cfg sys.store
                 else fail cfg t job response sys.store
      some ({ s with executing := none,
                     pollTimer := if s.running then some cfg.interval else s.pollTimer },
            { sys with store := st1 })

/-- Run a timed event list; an event that is not enabled leaves the state
unchanged. -/
def runEvents (cfg : WCfg) (evs : List (String × Event)) (init : WState × Sys) : WState × Sys :=
  evs.foldl (fun st te => (step cfg te.1 st.1 st.2 te.2).getD st) init

/-! ### QueueRunner (runner.js lines 28-45) -/
/-- A queue runner owns its queue name and its workers, keyed 0..n-1 in the
order Object.keys enumerates them. -/
structure Runner where
  queue : String
  workers : List (WCfg × WState)

/-- Stop every worker in key order, threading the shared system state. -/
def stopAll : List (WCfg × WState) → Sys → List (WCfg × WState) × Sys
  | [], sys => ([], sys)
  | (cfg, s) :: rest, sys =>
    let (s1, sys1) := stopW cfg s sys
    let (rest1, sys2) := stopAll rest sys1
    ((cfg, s1) :: rest1, sys2)

/-- QueueRunner.quit: log, then Worker.stop on every owned worker. -/
def quit (r : Runner) (sys : Sys) : Runner × Sys :=
  let sys1 := { sys with log :=
    ("Shutting down workers for " ++ r.queue ++ " queue") :: sys.log }
  let (ws, sys2) := stopAll r.workers sys1
  ({ r with workers := ws }, sys2)

/-- Modelled from the spec: the Job wire format is
"\x7b\"class\": ..., \"args\": [...]\x7d" — an object with a string class
and an array args. runner.js itself never checks this shape; the predicate
only serves to state claims phrased in terms of parsing as a Job. -/
def isJobShape : Json → Bool
  | Json.obj fs =>
    (match fieldLookup fs "class" with
     | some (Json.str _) => true
     | _ => false) &&
    (match fieldLookup fs "args" with
     | some (Json.arr _) => true
     | _ => false)
  | _ => false

/-! ### Concrete fixtures used in examples, counterexamples and witnesses -/
def store0 : Store :=
  { workers := [], kv := [], processed := 0, failed := 0, failedList := [] }

def sys0 : Sys := { store := store0, log := [] }

def cfgX : WCfg :=
  { queue := "default", id := 0, name := mkName "host" 1 0 "default", interval := 5000 }

/-- Lookup in a field list with possibly-undefined values, as it behaves
after the undefined entries are dropped. -/
def lookupDefined : List (String × Option Json) → String → Option Json
  | [], _ => none
  | (k1, v) :: fs, k =>
    if k1 = k then
      match v with
      | some w => some w
      | none => lookupDefined fs k
    else lookupDefined fs k

/-! ### Poll-cycle behavior -/
/-- A worker that has started and is waiting on its lpop callback. -/
def sR : WState :=
  { running := true, pendingPop := true, pollTimer := none, executing := none }

/-- A registered store used by witnesses. -/
def sysW : Sys := { store := { store0 with workers := [cfgX.name] }, log := [] }

/-- An idle worker: registered and waiting on its timer, no job in
flight. -/
def sIdle : WState :=
  { running := true, pendingPop := false, pollTimer := some 5000, executing := none }

/-- A one-worker runner used by the claim C8 witness. -/
def runnerX : Runner := { queue := "default", workers := [(cfgX, sIdle)] }

example : parseJson "null" = Except.ok Json.null := by rfl

example : parseJson "not json" =
    Except.error "SyntaxError: Unexpected token" := by rfl

example : parseJson "5" = Except.ok (Json.num "5") := by rfl

example : parseJson "[]" = Except.ok (Json.arr []) := by rfl

example : parseJson "\x7b\"exception\":\"E\",\"error\":\"msg\",\"backtrace\":[\"l1\"]\x7d" =
    Except.ok (Json.obj [("exception", Json.str "E"), ("error", Json.str "msg"),
      ("backtrace", Json.arr [Json.str "l1"])]) := by rfl

example : stringify (Json.obj [("queue", Json.str "q"), ("payload", Json.num "5")]) =
    "\x7b\"queue\":\"q\",\"payload\":5\x7d" := by rfl

example : cfgX.name = "host:1-0:default" := by rfl

/-! ### Small lemmas about the store operations -/
theorem kvGet_kvDel_self (kv : List (String × String)) (k : String) :
    kvGet (kvDel kv k) k = none := by
  induction kv with
  | nil => rfl
  | cons p rest ih =>
    obtain ⟨k1, v⟩ := p
    by_cases h : k1 = k <;> simp [kvDel, kvGet, h, ih]

theorem kvGet_kvDel_ne (kv : List (String × String)) (k k1 : String) (h : k1 ≠ k) :
    kvGet (kvDel kv k) k1 = kvGet kv k1 := by
  induction kv with
  | nil => rfl
  | cons p rest ih =>
    obtain ⟨k2, v⟩ := p
    by_cases h2 : k2 = k
    · subst h2
      simp [kvDel, kvGet, Ne.symm h, ih]
    · by_cases h3 : k2 = k1 <;> simp [kvDel, kvGet, h, h2, h3, ih]

theorem kvGet_kvSet_self (kv : List (String × String)) (k v : String) :
    kvGet (kvSet kv k v) k = some v := by
  simp [kvSet, kvGet]

theorem kvGet_kvSet_ne (kv : List (String × String)) (k v k1 : String) (h : k1 ≠ k) :
    kvGet (kvSet kv k v) k1 = kvGet kv k1 := by
  simp [kvSet, kvGet, Ne.symm h, kvGet_kvDel_ne kv k k1 h]

theorem mem_sadd_self (l : List String) (x : String) : x ∈ sadd l x := by
  by_cases h : x ∈ l <;> simp [sadd, h]

theorem mem_sadd_of_mem (l : List String) (x y : String) (h : y ∈ l) : y ∈ sadd l x := by
  by_cases hx : x ∈ l <;> simp [sadd, hx, h]

theorem not_mem_srem_self (l : List String) (x : String) : x ∉ srem l x := by
  induction l with
  | nil => simp [srem]
  | cons y rest ih =>
    by_cases h : y = x <;> simp [srem, h, ih]
    exact fun hx => absurd hx.symm h

theorem not_mem_srem_of_not_mem (l : List String) (x y : String) (h : y ∉ l) :
    y ∉ srem l x := by
  induction l with
  | nil => simp [srem]
  | cons z rest ih =>
    simp only [List.mem_cons, not_or] at h
    by_cases hz : z = x
    · simpa [srem, hz] using ih h.2
    · simp only [srem, hz, if_false, List.mem_cons, not_or]
      exact ⟨h.1, ih h.2⟩

theorem workerKey_ne_startedKey (n : String) : workerKey n ≠ startedKey n := by
  intro h
  have hl : (workerKey n).length = (startedKey n).length := by rw [h]
  rw [startedKey, String.length_append] at hl
  have h8 : (":started" : String).length = 8 := by decide
  omega

/-! ### Shape of the classification and of the serialized failure record -/
theorem classify_of_error (resp e : String) (h : parseJson resp = Except.error e) :
    classify resp = genericInfo resp := by
  simp [classify, h]

theorem classify_of_null (resp : String) (h : parseJson resp = Except.ok Json.null) :
    classify resp = genericInfo resp := by
  simp [classify, h, extractInfo]

theorem extractInfo_of_ne_null (data : Json) (h : data ≠ Json.null) :
    extractInfo data = some
      [("exception", jsGetField data "exception"),
       ("error", jsGetField data "error"),
       ("backtrace", jsGetField data "backtrace")] := by
  cases data with
  | null => exact absurd rfl h
  | bool b => rfl
  | num s => rfl
  | str s => rfl
  | arr xs => rfl
  | obj fs => rfl

theorem classify_of_ok (resp : String) (data : Json)
    (h : parseJson resp = Except.ok data) (hn : data ≠ Json.null) :
    classify resp =
      [("exception", jsGetField data "exception"),
       ("error", jsGetField data "error"),
       ("backtrace", jsGetField data "backtrace")] := by
  simp [classify, h, extractInfo_of_ne_null data hn]

theorem fieldLookup_definedFields (fs : List (String × Option Json)) (k : String) :
    fieldLookup (definedFields fs) k = lookupDefined fs k := by
  induction fs with
  | nil => rfl
  | cons p fs ih =>
    obtain ⟨k1, v⟩ := p
    cases v with
    | some w => by_cases h : k1 = k <;> simp [definedFields, fieldLookup, lookupDefined, h, ih]
    | none => by_cases h : k1 = k <;> simp [definedFields, fieldLookup, lookupDefined, h, ih]

theorem classify_shape (resp : String) :
    classify resp = genericInfo resp ∨
    ∃ data, parseJson resp = Except.ok data ∧ data ≠ Json.null ∧
      classify resp =
        [("exception", jsGetField data "exception"),
         ("error", jsGetField data "error"),
         ("backtrace", jsGetField data "backtrace")] := by
  cases h : parseJson resp with
  | error e => exact Or.inl (classify_of_error resp e h)
  | ok data =>
    by_cases hn : data = Json.null
    · subst hn
      exact Or.inl (classify_of_null resp h)
    · exact Or.inr ⟨data, rfl, hn, classify_of_ok resp data h hn⟩

/-- Claim C2, corrected, counterexample: the diagnostic text "null" parses
as JSON, yet the failure record is given the generic classification, not
fields extracted from the parsed value. -/
theorem classify_json_null_counterexample :
    parseJson "null" = Except.ok Json.null ∧
    jlookup (failureRecordJson "T" (Json.obj []) "w" "q" "null") "exception"
      = some (Json.str "UnclassifiedRunnerError") ∧
    jlookup (failureRecordJson "T" (Json.obj []) "w" "q" "null") "error"
      = some (Json.str "null") :=
  ⟨rfl, rfl, rfl⟩

/-- Claim C2 (amended): a diagnostic text that parses as JSON to a non-null
value has the fields exception, error and backtrace extracted verbatim; a
text whose parse raises, or parses to null (extraction throws), gets the
generic classification. The two concrete examples of the claim hold. -/
theorem fail_classifies_diagnostic :
    (∀ resp e, parseJson resp = Except.error e → classify resp = genericInfo resp) ∧
    (∀ resp, parseJson resp = Except.ok Json.null → classify resp = genericInfo resp) ∧
    (∀ resp data, parseJson resp = Except.ok data → data ≠ Json.null →
      classify resp =
        [("exception", jsGetField data "exception"),
         ("error", jsGetField data "error"),
         ("backtrace", jsGetField data "backtrace")]) ∧
    jlookup (failureRecordJson "T" (Json.obj []) "w" "q"
        "\x7b\"exception\":\"E\",\"error\":\"msg\",\"backtrace\":[\"l1\"]\x7d") "exception"
      = some (Json.str "E") ∧
    jlookup (failureRecordJson "T" (Json.obj []) "w" "q"
        "\x7b\"exception\":\"E\",\"error\":\"msg\",\"backtrace\":[\"l1\"]\x7d") "error"
      = some (Json.str "msg") ∧
    jlookup (failureRecordJson "T" (Json.obj []) "w" "q"
        "\x7b\"exception\":\"E\",\"error\":\"msg\",\"backtrace\":[\"l1\"]\x7d") "backtrace"
      = some (Json.arr [Json.str "l1"]) ∧
    jlookup (failureRecordJson "T" (Json.obj []) "w" "q" "not json") "exception"
      = some (Json.str "UnclassifiedRunnerError") ∧
    jlookup (failureRecordJson "T" (Json.obj []) "w" "q" "not json") "error"
      = some (Json.str "not json") :=
  ⟨classify_of_error, classify_of_null, classify_of_ok, rfl, rfl, rfl, rfl, rfl⟩

/-- Claim C2 witness: the amended theorem applied to the diagnostic text
"not json", whose parse raises. -/
theorem fail_classifies_diagnostic_witness :
    classify "not json" = genericInfo "not json" :=
  fail_classifies_diagnostic.1 "not json" "SyntaxError: Unexpected token" rfl

/-- Claim C9: the generic classification is used when the diagnostic fails
to parse and also when it parses to JSON null (field extraction throws in
the same guarded block); any other non-object parse result (number, string,
boolean) extracts undefined fields instead of the generic classification. -/
theorem classify_null_vs_scalars :
    (∀ resp, parseJson resp = Except.ok Json.null → classify resp = genericInfo resp) ∧
    (∀ resp e, parseJson resp = Except.error e → classify resp = genericInfo resp) ∧
    (∀ resp s, parseJson resp = Except.ok (Json.num s) →
      classify resp = [("exception", none), ("error", none), ("backtrace", none)]) ∧
    (∀ resp s, parseJson resp = Except.ok (Json.str s) →
      classify resp = [("exception", none), ("error", none), ("backtrace", none)]) ∧
    (∀ resp b, parseJson resp = Except.ok (Json.bool b) →
      classify resp = [("exception", none), ("error", none), ("backtrace", none)]) ∧
    (∀ resp, [(("exception" : String), (none : Option Json)), ("error", none),
        ("backtrace", none)] ≠ genericInfo resp) := by
  refine ⟨classify_of_null, classify_of_error, ?_, ?_, ?_, ?_⟩
  · intro resp s h
    rw [classify_of_ok resp (Json.num s) h (fun hx => Json.noConfusion hx)]
    rfl
  · intro resp s h
    rw [classify_of_ok resp (Json.str s) h (fun hx => Json.noConfusion hx)]
    rfl
  · intro resp b h
    rw [classify_of_ok resp (Json.bool b) h (fun hx => Json.noConfusion hx)]
    rfl
  · intro resp h
    simp [genericInfo] at h

/-- Claim C9 witness: concrete diagnostics "null" and "5". -/
theorem classify_null_vs_scalars_witness :
    classify "null" = genericInfo "null" ∧
    classify "5" = [("exception", none), ("error", none), ("backtrace", none)] :=
  ⟨classify_null_vs_scalars.1 "null" rfl,
   classify_null_vs_scalars.2.2.1 "5" "5" rfl⟩

/-- Claim C3, corrected, counterexample: when the diagnostic parses as a
JSON object without a backtrace field, the undefined extracted value
overwrites the null default and JSON.stringify drops the key, so the
published record has no backtrace field at all. -/
theorem backtrace_dropped_counterexample :
    jlookup (failureRecordJson "T" (Json.obj []) "w" "q" "\x7b\"exception\":\"E\"\x7d")
      "backtrace" = none ∧
    jlookup (failureRecordJson "T" (Json.obj []) "w" "q" "\x7b\"exception\":\"E\"\x7d")
      "exception" = some (Json.str "E") ∧
    jlookup (failureRecordJson "T" (Json.obj []) "w" "q" "\x7b\"exception\":\"E\"\x7d")
      "error" = none :=
  ⟨rfl, rfl, rfl⟩

/-- Claim C3 (amended): every failure record carries failed_at, payload
(the original job embedded unchanged), worker and queue; backtrace is null
(and exception and error the generic values) whenever the classification is
generic, and equals the diagnostic JSON value of backtrace otherwise — in
particular the key is absent when the diagnostic object defines none. -/
theorem failureRecord_shape :
    (∀ t job name queue resp,
      jlookup (failureRecordJson t job name queue resp) "failed_at" = some (Json.str t) ∧
      jlookup (failureRecordJson t job name queue resp) "payload" = some job ∧
      jlookup (failureRecordJson t job name queue resp) "worker" = some (Json.str name) ∧
      jlookup (failureRecordJson t job name queue resp) "queue" = some (Json.str queue)) ∧
    (∀ t job name queue resp, classify resp = genericInfo resp →
      jlookup (failureRecordJson t job name queue resp) "backtrace" = some Json.null ∧
      jlookup (failureRecordJson t job name queue resp) "exception"
        = some (Json.str "UnclassifiedRunnerError") ∧
      jlookup (failureRecordJson t job name queue resp) "error" = some (Json.str resp)) ∧
    (∀ t job name queue resp data, parseJson resp = Except.ok data → data ≠ Json.null →
      jlookup (failureRecordJson t job name queue resp) "backtrace"
        = jsGetField data "backtrace") := by
  refine ⟨?_, ?_, ?_⟩
  · intro t job name queue resp
    rcases classify_shape resp with h | ⟨data, _, _, h⟩ <;>
      simp only [failureRecordJson, h] <;> exact ⟨rfl, rfl, rfl, rfl⟩
  · intro t job name queue resp h
    simp only [failureRecordJson, h]
    exact ⟨rfl, rfl, rfl⟩
  · intro t job name queue resp data h hn
    simp only [failureRecordJson, classify_of_ok resp data h hn, jlookup]
    rw [fieldLookup_definedFields]
    cases hb : jsGetField data "backtrace" with
    | none => rfl
    | some w => rfl

/-- Claim C3 witness: a diagnostic that defines a backtrace puts exactly
that value in the record. -/
theorem failureRecord_shape_witness :
    jlookup (failureRecordJson "T" (Json.obj []) "w" "q" "\x7b\"backtrace\":\"bt\"\x7d")
      "backtrace" = jsGetField (Json.obj [("backtrace", Json.str "bt")]) "backtrace" :=
  failureRecord_shape.2.2 "T" (Json.obj []) "w" "q" "\x7b\"backtrace\":\"bt\"\x7d"
    (Json.obj [("backtrace", Json.str "bt")]) rfl (fun hx => Json.noConfusion hx)

/-- Claim C5: a transport error on the pop leaves the store untouched (so
neither stat counter moves), logs the error, and arms the poll timer with
exactly the configured interval; firing that timer re-issues the pop. -/
theorem transport_error_retries :
    ∀ cfg t s sys m, s.pendingPop = true →
      step cfg t s sys (Event.popReply (PopResult.err m)) =
        some ({ s with pendingPop := false, pollTimer := some cfg.interval },
              { sys with log := ("Worker-Error: " ++ m) :: sys.log }) ∧
      (∀ t2 sys2, step cfg t2 { s with pendingPop := false, pollTimer := some cfg.interval }
          sys2 Event.timerFire =
        some ({ s with pendingPop := true, pollTimer := none }, sys2)) := by
  intro cfg t s sys m h
  constructor
  · simp [step, h]
  · intro t2 sys2
    rfl

/-- Claim C5 witness. -/
theorem transport_error_retries_witness :
    step cfgX "T" sR sys0 (Event.popReply (PopResult.err "ECONNREFUSED")) =
      some ({ sR with pendingPop := false, pollTimer := some cfgX.interval },
            { sys0 with log := ["Worker-Error: ECONNREFUSED"] }) :=
  (transport_error_retries cfgX "T" sR sys0 "ECONNREFUSED" rfl).1

/-- Claim C4 (amended): a popped payload that fails JSON parsing is a
transport-level bail — logged, poll retried after the interval, store
untouched (no working-on record, no counter, no failure record), nothing
executed; but a payload that parses as JSON, Job-shaped or not, proceeds:
a working-on record is written and the child is forked. -/
theorem malformed_payload_bails :
    (∀ cfg t s sys p e, s.pendingPop = true → parseJson p = Except.error e →
      step cfg t s sys (Event.popReply (PopResult.payload p)) =
        some ({ s with pendingPop := false, pollTimer := some cfg.interval },
              { sys with log := ("Worker-Error: Parse Error: " ++ e) :: sys.log })) ∧
    (∀ cfg t s sys p job, s.pendingPop = true → parseJson p = Except.ok job →
      step cfg t s sys (Event.popReply (PopResult.payload p)) =
        some ({ s with pendingPop := false, executing := some (job, p) },
              { sys with store := workingOn cfg t job sys.store })) := by
  constructor
  · intro cfg t s sys p e h hp
    simp [step, h, hp]
  · intro cfg t s sys p job h hp
    simp [step, h, hp]

/-- Claim C4 witness: the malformed payload "]" is logged and retried with
nothing written. -/
theorem malformed_payload_bails_witness :
    step cfgX "T" sR sys0 (Event.popReply (PopResult.payload "]")) =
      some ({ sR with pendingPop := false, pollTimer := some cfgX.interval },
            { sys0 with log :=
              ["Worker-Error: Parse Error: SyntaxError: Unexpected token"] }) :=
  malformed_payload_bails.1 cfgX "T" sR sys0 "]" "SyntaxError: Unexpected token" rfl rfl

/-- Claim C4, corrected, counterexample: the payload "5" is not a Job by
the spec's wire shape, yet the worker does not bail: it writes a working-on
record and hands the payload to the executor; when that execution fails,
the failed counter moves and a failure record is appended — all of which
the claim rules out for payloads that do not parse as a Job. -/
theorem nonjob_payload_executes_counterexample :
    isJobShape (Json.num "5") = false ∧
    step cfgX "T" sR sys0 (Event.popReply (PopResult.payload "5")) =
      some ({ sR with pendingPop := false, executing := some (Json.num "5", "5") },
            { sys0 with store := { store0 with kv := [(workerKey cfgX.name,
                stringify (workingOnJson "default" "T" (Json.num "5")))] } }) ∧
    (step cfgX "T2" { sR with pendingPop := false, executing := some (Json.num "5", "5") }
        sys0 (Event.childExit 1 "boom")).map
      (fun r => (r.2.store.failed, r.2.store.failedList.length)) = some (1, 1) :=
  ⟨rfl, rfl, rfl⟩

/-- Claim C6: the outcome of an execution is classified solely by the child
exit code — 0 runs the success path (processed counter bumped, working-on
record deleted, nothing pushed to the failure list), anything else runs the
failure path with the captured diagnostic text (failed counter bumped,
working-on record deleted, the classified record pushed); the step takes
exactly one of the two branches. -/
theorem exit_code_classifies :
    ∀ cfg t s sys job p code resp, s.executing = some (job, p) →
      step cfg t s sys (Event.childExit code resp) =
        some ({ s with executing := none,
                       pollTimer := if s.running then some cfg.interval else s.pollTimer },
              { sys with store := if code = 0 then success cfg sys.store
                                  else fail cfg t job resp sys.store }) ∧
      (code = 0 → (success cfg sys.store).processed = sys.store.processed + 1 ∧
        (success cfg sys.store).failed = sys.store.failed ∧
        (success cfg sys.store).failedList = sys.store.failedList ∧
        kvGet (success cfg sys.store).kv (workerKey cfg.name) = none) ∧
      (code ≠ 0 → (fail cfg t job resp sys.store).failed = sys.store.failed + 1 ∧
        (fail cfg t job resp sys.store).processed = sys.store.processed ∧
        (fail cfg t job resp sys.store).failedList
          = stringify (failureRecordJson t job cfg.name cfg.queue resp)
              :: sys.store.failedList ∧
        kvGet (fail cfg t job resp sys.store).kv (workerKey cfg.name) = none) := by
  intro cfg t s sys job p code resp h
  refine ⟨by simp [step, h], ?_, ?_⟩
  · intro _
    exact ⟨rfl, rfl, rfl, kvGet_kvDel_self _ _⟩
  · intro _
    exact ⟨rfl, rfl, rfl, kvGet_kvDel_self _ _⟩

/-- Claim C6 witness: both branches at concrete states. -/
theorem exit_code_classifies_witness :
    step cfgX "T" { sR with pendingPop := false, executing := some (Json.null, "null") }
        sys0 (Event.childExit 0 "") =
      some ({ sR with pendingPop := false, executing := none,
                      pollTimer := some cfgX.interval },
            { sys0 with store := success cfgX store0 }) ∧
    (success cfgX store0).processed = store0.processed + 1 :=
  ⟨((exit_code_classifies cfgX "T"
      { sR with pendingPop := false, executing := some (Json.null, "null") }
      sys0 Json.null "null" 0 "" rfl).1),
   ((exit_code_classifies cfgX "T"
      { sR with pendingPop := false, executing := some (Json.null, "null") }
      sys0 Json.null "null" 0 "" rfl).2.1 rfl).1⟩

/-! ### Stopping behavior -/
/-- Claim C1: the running flag is only consulted in the child exit handler.
First trace: stop() lands while the lpop is in flight and the pop then
resolves empty — the callback re-arms the poll timer unconditionally, so a
further poll is scheduled on a stopped worker. Second trace: stop() while a
job execution is in flight — the exit handler sees running = false and ends
the cycle, as the claim describes. -/
theorem stop_during_pop_reschedules :
    ((runEvents cfgX [("t0", Event.start), ("t1", Event.stop),
        ("t2", Event.popReply PopResult.nil)] (w0, sys0)).1.running = false ∧
     (runEvents cfgX [("t0", Event.start), ("t1", Event.stop),
        ("t2", Event.popReply PopResult.nil)] (w0, sys0)).1.pollTimer
       = some cfgX.interval) ∧
    ((runEvents cfgX [("t0", Event.start), ("t1", Event.popReply (PopResult.payload "[]")),
        ("t2", Event.stop), ("t3", Event.childExit 0 "")] (w0, sys0)).1.running = false ∧
     (runEvents cfgX [("t0", Event.start), ("t1", Event.popReply (PopResult.payload "[]")),
        ("t2", Event.stop), ("t3", Event.childExit 0 "")] (w0, sys0)).1.pollTimer = none ∧
     (runEvents cfgX [("t0", Event.start), ("t1", Event.popReply (PopResult.payload "[]")),
        ("t2", Event.stop), ("t3", Event.childExit 0 "")] (w0, sys0)).1.executing = none) :=
  ⟨⟨rfl, rfl⟩, rfl, rfl, rfl⟩

/-! ### Registration invariant -/
/-- Any event other than stop leaves every live-worker-set membership in
place: register only adds, and the other handlers never touch the set. -/
theorem step_preserves_workers_mem (cfg : WCfg) (t : String) (s : WState) (sys : Sys)
    (e : Event) (he : e ≠ Event.stop) (n : String) (h : n ∈ sys.store.workers) :
    n ∈ ((step cfg t s sys e).getD (s, sys)).2.store.workers := by
  cases e with
  | start =>
    by_cases hc : s.running ∨ s.pendingPop = true ∨ s.pollTimer.isSome = true ∨
        s.executing.isSome = true
    · simp [step, hc, h]
    · simp [step, hc, register, mem_sadd_of_mem _ _ _ h]
  | stop => exact absurd rfl he
  | timerFire =>
    cases hp : s.pollTimer <;> simp [step, hp, h]
  | popReply r =>
    by_cases hp : s.pendingPop
    · cases r with
      | err m => simp [step, hp, h]
      | nil => simp [step, hp, h]
      | payload p =>
        cases hj : parseJson p with
        | error e => simp [step, hp, hj, h]
        | ok job => simp [step, hp, hj, workingOn, h]
    · simp [step, hp, h]
  | childExit code resp =>
    cases hx : s.executing with
    | none => simp [step, hx, h]
    | some jp =>
      obtain ⟨job, p⟩ := jp
      by_cases hc : code = 0 <;>
        simp [step, hx, hc, success, fail, done, h]

/-- Claim C7: start() adds the identity to the live-worker set and writes
the started-at key in the same atomic turn that issues the first poll; and
from any state where the identity is registered, it stays registered under
every event until a stop. -/
theorem start_registers_before_poll :
    (∀ cfg t sys, ∃ s1 sys1, step cfg t w0 sys Event.start = some (s1, sys1) ∧
      cfg.name ∈ sys1.store.workers ∧
      kvGet sys1.store.kv (startedKey cfg.name) = some t ∧
      s1.pendingPop = true ∧ s1.running = true) ∧
    (∀ cfg (init : WState × Sys) evs, cfg.name ∈ init.2.store.workers →
      (∀ te ∈ evs, te.2 ≠ Event.stop) →
      cfg.name ∈ (runEvents cfg evs init).2.store.workers) := by
  constructor
  · intro cfg t sys
    refine ⟨_, _, rfl, ?_, ?_, rfl, rfl⟩
    · exact mem_sadd_self _ _
    · exact kvGet_kvSet_self _ _ _
  · intro cfg init evs h hne
    induction evs generalizing init with
    | nil => exact h
    | cons te rest ih =>
      have h1 := step_preserves_workers_mem cfg te.1 init.1 init.2 te.2
        (hne te (List.mem_cons_self te rest)) cfg.name h
      exact ih ((step cfg te.1 init.1 init.2 te.2).getD init) h1
        (fun te2 ht => hne te2 (List.mem_cons_of_mem te ht))

/-- Claim C7 witness: the invariant through a concrete stop-free event
list. -/
theorem start_registers_before_poll_witness :
    cfgX.name ∈ (runEvents cfgX [("t", Event.timerFire)] (w0, sysW)).2.store.workers :=
  start_registers_before_poll.2 cfgX (w0, sysW) [("t", Event.timerFire)]
    (by decide) (by decide)

/-! ### Shutdown of a whole runner -/
theorem kvGet_kvDel_of_none (kv : List (String × String)) (k k1 : String)
    (h : kvGet kv k = none) : kvGet (kvDel kv k1) k = none := by
  by_cases hk : k = k1
  · subst hk
    exact kvGet_kvDel_self kv k
  · rw [kvGet_kvDel_ne kv k1 k hk]
    exact h

/-- Worker.stop removes its own identity and deletes both of its keys. -/
theorem stopW_clears (cfg : WCfg) (s : WState) (sys : Sys) :
    cfg.name ∉ (stopW cfg s sys).2.store.workers ∧
    kvGet (stopW cfg s sys).2.store.kv (workerKey cfg.name) = none ∧
    kvGet (stopW cfg s sys).2.store.kv (startedKey cfg.name) = none := by
  refine ⟨not_mem_srem_self _ _, ?_, kvGet_kvDel_self _ _⟩
  exact kvGet_kvDel_of_none _ _ _ (kvGet_kvDel_self _ _)

/-- Worker.stop never re-adds an identity nor re-creates a deleted key. -/
theorem stopW_preserves (cfg : WCfg) (s : WState) (sys : Sys) (n k : String)
    (hn : n ∉ sys.store.workers) (hk : kvGet sys.store.kv k = none) :
    n ∉ (stopW cfg s sys).2.store.workers ∧
    kvGet (stopW cfg s sys).2.store.kv k = none := by
  refine ⟨not_mem_srem_of_not_mem _ _ _ hn, ?_⟩
  exact kvGet_kvDel_of_none _ _ _ (kvGet_kvDel_of_none _ _ _ hk)

theorem stopAll_preserves (ws : List (WCfg × WState)) :
    ∀ (sys : Sys) (n k : String), n ∉ sys.store.workers → kvGet sys.store.kv k = none →
      n ∉ (stopAll ws sys).2.store.workers ∧
      kvGet (stopAll ws sys).2.store.kv k = none := by
  induction ws with
  | nil => exact fun sys n k hn hk => ⟨hn, hk⟩
  | cons cw rest ih =>
    intro sys n k hn hk
    obtain ⟨cfg1, s1⟩ := cw
    have h1 := stopW_preserves cfg1 s1 sys n k hn hk
    exact ih (stopW cfg1 s1 sys).2 n k h1.1 h1.2

theorem stopAll_clears (ws : List (WCfg × WState)) :
    ∀ (sys : Sys) (cfg : WCfg) (s : WState), (cfg, s) ∈ ws →
      cfg.name ∉ (stopAll ws sys).2.store.workers ∧
      kvGet (stopAll ws sys).2.store.kv (workerKey cfg.name) = none ∧
      kvGet (stopAll ws sys).2.store.kv (startedKey cfg.name) = none := by
  induction ws with
  | nil => intro sys cfg s hm; cases hm
  | cons cw rest ih =>
    intro sys cfg s hm
    obtain ⟨cfg1, s1⟩ := cw
    rcases List.mem_cons.mp hm with heq | hrest
    · injection heq with h1 h2
      subst h1
      have hclear := stopW_clears cfg s1 sys
      have h1p := stopAll_preserves rest (stopW cfg s1 sys).2 cfg.name
        (workerKey cfg.name) hclear.1 hclear.2.1
      have h2p := stopAll_preserves rest (stopW cfg s1 sys).2 cfg.name
        (startedKey cfg.name) hclear.1 hclear.2.2
      exact ⟨h1p.1, h1p.2, h2p.2⟩
    · exact ih (stopW cfg1 s1 sys).2 cfg s hrest

/-- Claim C8: QueueRunner.quit stops every owned worker, which removes each
identity from the live-worker set and deletes both its working-on key and
its started-at key — whatever state the worker was in, job in flight or
not. -/
theorem quit_unregisters_all :
    ∀ (r : Runner) (sys : Sys) (cfg : WCfg) (s : WState), (cfg, s) ∈ r.workers →
      cfg.name ∉ (quit r sys).2.store.workers ∧
      kvGet (quit r sys).2.store.kv (workerKey cfg.name) = none ∧
      kvGet (quit r sys).2.store.kv (startedKey cfg.name) = none := by
  intro r sys cfg s hm
  exact stopAll_clears r.workers
    { sys with log := ("Shutting down workers for " ++ r.queue ++ " queue") :: sys.log }
    cfg s hm

/-- Claim C8 witness: quitting a runner whose single worker has no job in
flight still unregisters it. -/
theorem quit_unregisters_all_witness :
    cfgX.name ∉ (quit runnerX sysW).2.store.workers ∧
    kvGet (quit runnerX sysW).2.store.kv (startedKey cfgX.name) = none :=
  ⟨(quit_unregisters_all runnerX sysW cfgX sIdle (List.mem_cons_self _ _)).1,
   (quit_unregisters_all runnerX sysW cfgX sIdle (List.mem_cons_self _ _)).2.2⟩

/-! ### Frame of the bookkeeping paths -/
/-- Claim C10: success() bumps only the processed counter and fail() only
the failed counter; success pushes nothing, both leave the live-worker set
and every key other than the caller's own working-on key alone (the
started-at key included), and both delete exactly that working-on key. -/
theorem success_fail_frame :
    ∀ (cfg : WCfg) (st : Store) (t : String) (job : Json) (resp k : String),
      k ≠ workerKey cfg.name →
      (success cfg st).processed = st.processed + 1 ∧
      (success cfg st).failed = st.failed ∧
      (success cfg st).failedList = st.failedList ∧
      (success cfg st).workers = st.workers ∧
      (fail cfg t job resp st).failed = st.failed + 1 ∧
      (fail cfg t job resp st).processed = st.processed ∧
      (fail cfg t job resp st).workers = st.workers ∧
      kvGet (success cfg st).kv (workerKey cfg.name) = none ∧
      kvGet (fail cfg t job resp st).kv (workerKey cfg.name) = none ∧
      kvGet (success cfg st).kv k = kvGet st.kv k ∧
      kvGet (fail cfg t job resp st).kv k = kvGet st.kv k ∧
      kvGet (success cfg st).kv (startedKey cfg.name) = kvGet st.kv (startedKey cfg.name) ∧
      kvGet (fail cfg t job resp st).kv (startedKey cfg.name)
        = kvGet st.kv (startedKey cfg.name) := by
  intro cfg st t job resp k hk
  have hs := Ne.symm (workerKey_ne_startedKey cfg.name)
  exact ⟨rfl, rfl, rfl, rfl, rfl, rfl, rfl,
    kvGet_kvDel_self _ _, kvGet_kvDel_self _ _,
    kvGet_kvDel_ne _ _ _ hk, kvGet_kvDel_ne _ _ _ hk,
    kvGet_kvDel_ne _ _ _ hs, kvGet_kvDel_ne _ _ _ hs⟩

/-- Claim C10 witness: concrete instantiation, with a key different from
the working-on key left untouched. -/
theorem success_fail_frame_witness :
    (success cfgX store0).processed = store0.processed + 1 ∧
    kvGet (fail cfgX "T" Json.null "boom" store0).kv "other" = kvGet store0.kv "other" :=
  ⟨(success_fail_frame cfgX store0 "T" Json.null "boom" "other" (by decide)).1,
   (success_fail_frame cfgX store0 "T" Json.null "boom" "other"
     (by decide)).2.2.2.2.2.2.2.2.2.2.1⟩
